import Mathlib

/-!
Shallow embedding of `src/Sandbox.js` (terrificjs): the mediator object.

The sandbox holds a reference to the application, a configuration object and
a list of connectors, and exposes `addModules`, `removeModules`,
`getModuleById`, `getConfig`, `getConfigParam`, `addConnector` and `dispatch`.

Modelling conventions:
* JavaScript values appearing in the configuration object and in dispatch
  payloads are modelled by `JSValue`, with an explicit `undef` constructor
  for `undefined`.
* The configuration object is an association list of own properties; the JS
  property read `config[name]` yields the bound value, or `undefined` when
  the key is not an own property (`propGet`).
* The application collaborator is opaque: its `registerModules` and
  `getModuleById` behaviours are function fields; its effectful entry points
  (`start`, `stop`, `unregisterModules`, and the lookup calls themselves)
  are recorded in explicit event traces, in the order the code invokes them.
* DOM nodes passed to `removeModules` are modelled by their current parent
  pointer plus the list of descendant elements in document order; each
  element carries its optional `data-t-name` / `data-t-id` attributes.
  `getAttribute` returns a string or `null`, never `undefined`
  (`AttrResult`), so the source's `id !== undefined` test is constantly
  true, which the embedding keeps as an explicit always-true guard.
* `connectors[i].emit.apply(args)` calls `Function.prototype.apply` with
  `args` as the `this` argument and no argument array, so the emit function
  runs with `this` bound to the payload array and an empty argument list;
  an `EmitCall` records the receiver identity, the `this` binding, and the
  positional arguments actually passed.  Connector identities are `Nat`
  (reference identity), and the possibility that an endpoint's emit throws
  is an environment parameter `emitThrows`; a thrown exception propagates,
  so the loop is aborted and `dispatch` does not reach `return this`.
All functions are total: paths on which the JS code throws are modelled
with `Except` (for `getConfigParam`) or an abort flag (for `dispatch`).
-/

/-- A JavaScript value, as far as the sandbox inspects one: configuration
entries and dispatch payload entries.  `undef` is `undefined`; `obj id` is
an object reference with identity `id`. -/
inductive JSValue where
  | undef
  | null
  | bool (b : Bool)
  | num (n : Int)
  | str (s : String)
  | obj (id : Nat)
deriving DecidableEq, Repr

/-- JS property read `config[name]` on a plain object with own properties
`config`: the bound value when `name` is an own property, `undefined`
otherwise. -/
def propGet (config : List (String × JSValue)) (name : String) : JSValue :=
  match config.find? (fun p => p.1 == name) with
  | some p => p.2
  | none => JSValue.undef

/-- `data-t-name` / `data-t-id` carrying element inside a subtree, in the
order `querySelectorAll` would report it.  `none` means the attribute is
absent from the element. -/
structure Element where
  tName : Option String
  tId : Option String
deriving DecidableEq, Repr

/-- Result of `Element.getAttribute`: a string, or `null` when the
attribute is absent.  `getAttribute` never returns `undefined`. -/
inductive AttrResult where
  | null
  | str (s : String)
deriving DecidableEq, Repr

/-- `ctx.getAttribute(\x7bdata-t-id\x7d)` from `Sandbox.js` line 87. -/
def getAttributeTId (e : Element) : AttrResult :=
  match e.tId with
  | some s => AttrResult.str s
  | none => AttrResult.null

/-- The test `id !== undefined` from `Sandbox.js` line 89: `id` came from
`getAttribute`, whose values are strings or `null`, never `undefined`, so
the test holds for every `AttrResult`. -/
def attrNeUndefined : AttrResult → Bool := fun _ => true

/-- `fragment.querySelectorAll(\x7b[data-t-name]\x7d)` from line 85: the
descendant elements carrying a `data-t-name` attribute, document order. -/
def querySelectorAllTName (elems : List Element) : List Element :=
  elems.filter (fun e => e.tName.isSome)

/-- The parent pointer of a DOM node.  `fragment` denotes the document
fragment freshly created inside `removeModules` (line 82), which is a new
object, distinct from any parent the node had before that call. -/
inductive Parent where
  | noParent
  | elem (id : Nat)
  | fragment
deriving DecidableEq, Repr

/-- A DOM node as `removeModules` observes it: its current parent pointer
and its descendant marked elements in document order. -/
structure DomNode where
  parent : Parent
  elems : List Element
deriving DecidableEq, Repr

/-- The application collaborator, as consumed by the sandbox:
`registerModules` maps a context node to the handles it registers, and
`getModuleById` resolves an identifier (the raw `getAttribute` result) to a
module handle, `none` when the identifier does not resolve (JS
`undefined`/`null` result, which is falsy). -/
structure Application (Ctx Handle : Type) where
  registerModules : Ctx → List Handle
  getModuleById : AttrResult → Option Handle

/-- The `Sandbox` state from the constructor (lines 15–40):
`this._application`, `this._config`, `this._connectors`.  Connectors are
identified by reference identity, modelled as `Nat`. -/
structure Sandbox (Ctx Handle : Type) where
  _application : Application Ctx Handle
  _config : List (String × JSValue)
  _connectors : List Nat

/-- `Sandbox.prototype.getConfig` (lines 132–134): returns the whole
configuration object. -/
def Sandbox.getConfig (s : Sandbox Ctx Handle) : List (String × JSValue) :=
  s._config

/-- `Sandbox.prototype.getModuleById` (lines 121–123): pure delegation. -/
def Sandbox.getModuleById (s : Sandbox Ctx Handle) (id : AttrResult) :
    Option Handle :=
  s._application.getModuleById id

/-- `Sandbox.prototype.getConfigParam` (lines 145–154):

    var config = this._config;
    if (config[name] !== undefined) { return config[name]; }
    else { throw Error('The config param ' + name + ' does not exist'); }

The throw is modelled as `Except.error` carrying the message string. -/
def Sandbox.getConfigParam (s : Sandbox Ctx Handle) (name : String) :
    Except String JSValue :=
  let config := s._config
  if propGet config name ≠ JSValue.undef then
    Except.ok (propGet config name)
  else
    Except.error ("The config param " ++ name ++ " does not exist")

/-- `Sandbox.prototype.addConnector` (lines 164–167): pushes the connector
and returns `this`. -/
def Sandbox.addConnector (s : Sandbox Ctx Handle) (connector : Nat) :
    Sandbox Ctx Handle :=
  { s with _connectors := s._connectors ++ [connector] }

/-- A sample sandbox over trivial context/handle types, used to instantiate
theorems at concrete inputs. -/
def sampleApp : Application Unit Nat :=
  { registerModules := fun _ => []
    getModuleById := fun _ => none }

/-- Sample sandbox with configuration `{retries: 0}` and no connectors. -/
def sampleSandboxRetries : Sandbox Unit Nat :=
  { _application := sampleApp
    _config := [("retries", JSValue.num 0)]
    _connectors := [] }

/-- Sample sandbox with an empty configuration. -/
def sampleSandboxEmpty : Sandbox Unit Nat :=
  { _application := sampleApp
    _config := []
    _connectors := [] }

/-- Sample sandbox whose configuration binds key `"k"` to `undefined`. -/
def sampleSandboxUndef : Sandbox Unit Nat :=
  { _application := sampleApp
    _config := [("k", JSValue.undef)]
    _connectors := [] }

/-- C2: for every key absent from the configuration, `getConfigParam`
raises the configuration-key-missing error, whose message contains the
missing key's name; it never returns a value. -/
theorem getConfigParam_missing_key_errors (s : Sandbox Ctx Handle)
    (name : String)
    (habsent : s._config.find? (fun p => p.1 == name) = none) :
    s.getConfigParam name =
      Except.error ("The config param " ++ name ++ " does not exist") ∧
    ∃ a b, ("The config param " ++ name ++ " does not exist")
      = a ++ name ++ b := by
  refine ⟨?_, "The config param ", " does not exist", rfl⟩
  unfold Sandbox.getConfigParam
  simp only [propGet, habsent, ne_eq, not_true_eq_false, if_false]

/-- C2 witness: `config = {}`, key `"missing"`. -/
theorem getConfigParam_missing_key_errors_witness :
    sampleSandboxEmpty.getConfigParam "missing" =
      Except.error ("The config param " ++ "missing" ++ " does not exist") ∧
    ∃ a b, ("The config param " ++ "missing" ++ " does not exist")
      = a ++ "missing" ++ b :=
  getConfigParam_missing_key_errors sampleSandboxEmpty "missing" (by rfl)

/-- C3: for every key present in the configuration with a defined value —
including falsy values such as `0`, `""` or `false` — `getConfigParam`
returns exactly that value. -/
theorem getConfigParam_present_returns_value (s : Sandbox Ctx Handle)
    (name : String) (kv : String × JSValue)
    (hfind : s._config.find? (fun p => p.1 == name) = some kv)
    (hdef : kv.2 ≠ JSValue.undef) :
    s.getConfigParam name = Except.ok kv.2 := by
  unfold Sandbox.getConfigParam
  simp only [propGet, hfind, ne_eq, hdef, not_false_eq_true, if_true]

/-- C3 witness: `config = {retries: 0}` yields `0`, not an error. -/
theorem getConfigParam_present_returns_value_witness :
    sampleSandboxRetries.getConfigParam "retries" =
      Except.ok (JSValue.num 0) :=
  getConfigParam_present_returns_value sampleSandboxRetries "retries"
    ("retries", JSValue.num 0) (by rfl) (by decide)

/-- C10: a key present in the configuration but bound to `undefined` is
treated exactly like an absent key: `getConfigParam` raises the
configuration-key-missing error for it, although `getConfig` exposes the
key on the returned object. -/
theorem getConfigParam_undefined_value_errors (s : Sandbox Ctx Handle)
    (name : String)
    (hfind : s._config.find? (fun p => p.1 == name)
      = some (name, JSValue.undef)) :
    s.getConfigParam name =
      Except.error ("The config param " ++ name ++ " does not exist") ∧
    name ∈ (s.getConfig).map Prod.fst := by
  constructor
  · unfold Sandbox.getConfigParam
    simp only [propGet, hfind, ne_eq, not_true_eq_false, if_false]
  · have hmem : (name, JSValue.undef) ∈ s._config :=
      List.mem_of_find?_eq_some hfind
    exact List.mem_map_of_mem Prod.fst hmem

/-- C10 witness: `config = {k: undefined}`, key `"k"`. -/
theorem getConfigParam_undefined_value_errors_witness :
    sampleSandboxUndef.getConfigParam "k" =
      Except.error ("The config param " ++ "k" ++ " does not exist") ∧
    "k" ∈ (sampleSandboxUndef.getConfig).map Prod.fst :=
  getConfigParam_undefined_value_errors sampleSandboxUndef "k" (by rfl)

/-- The argument handed to `addModules`, classified the way line 55
(`ctx instanceof Node`) classifies it: a DOM node, a JS array (which is not
a `Node`), or any other value, including an absent argument
(`undefined`). -/
inductive AddInput (Ctx : Type) where
  | node (ctx : Ctx)
  | array
  | other
deriving DecidableEq, Repr

/-- A delegated application call made by `addModules`, in invocation
order. -/
inductive AppCall (Ctx Handle : Type) where
  | registerModules (ctx : Ctx)
  | start (modules : List Handle)
deriving DecidableEq, Repr

/-- `Sandbox.prototype.addModules` (lines 51–64):

    var modules = [], application = this._application;
    if (ctx instanceof Node) {
      modules = application.registerModules(ctx);
      application.start(modules);
    }
    return modules;

Returns the collection the JS function returns, paired with the trace of
delegated application calls in invocation order (all of them have completed
when the function returns).  The function is total: no path throws. -/
def Sandbox.addModules (s : Sandbox Ctx Handle) (ctx : AddInput Ctx) :
    List Handle × List (AppCall Ctx Handle) :=
  match ctx with
  | AddInput.node n =>
      let modules := s._application.registerModules n
      (modules, [AppCall.registerModules n, AppCall.start modules])
  | _ => ([], [])

/-- C4: for every valid subtree root, `addModules` returns exactly the
collection produced by `registerModules`, and `start` has been invoked with
that same collection (after `registerModules`, before the call returns). -/
theorem addModules_returns_registered_and_starts (s : Sandbox Ctx Handle)
    (n : Ctx) :
    (s.addModules (AddInput.node n)).1 = s._application.registerModules n ∧
    (s.addModules (AddInput.node n)).2 =
      [AppCall.registerModules n,
       AppCall.start (s._application.registerModules n)] ∧
    AppCall.start (s.addModules (AddInput.node n)).1
      ∈ (s.addModules (AddInput.node n)).2 := by
  refine ⟨rfl, rfl, ?_⟩
  simp [Sandbox.addModules]

/-- C5: for every input that is not a valid subtree root (a plain value, an
array, absent), `addModules` returns an empty collection and performs no
delegated application call; the function is total, so no error is
raised. -/
theorem addModules_non_node_noop (s : Sandbox Ctx Handle) :
    s.addModules AddInput.array = ([], []) ∧
    s.addModules AddInput.other = ([], []) :=
  ⟨rfl, rfl⟩

/-- The argument handed to `removeModules`, classified the way lines 78 and
101 (`modules instanceof Node`, `Array.isArray(modules)`) classify it. -/
inductive RMInput (Handle : Type) where
  | node (n : DomNode)
  | array (hs : List Handle)
  | other
deriving DecidableEq, Repr

/-- An observable step taken by `removeModules`, in order: the DOM effects
of lines 82–83, each `getModuleById` lookup of line 90 with its result, and
the delegated `stop` / `unregisterModules` calls of lines 103 and 106. -/
inductive RMEvent (Handle : Type) where
  | createFragment
  | appendChild
  | getModuleByIdCall (id : AttrResult) (result : Option Handle)
  | stop (modules : List Handle)
  | unregisterModules (modules : List Handle)
deriving DecidableEq, Repr

/-- The body of the `forEach` callback of lines 85–96, acting on the
accumulated `tmpModules` paired with the event trace:

    var id = ctx.getAttribute('data-t-id');
    if (id !== undefined) {
      var module = this.getModuleById(id);
      if (module) { tmpModules.push(module); }
    }
-/
def collectStep (getById : AttrResult → Option Handle)
    (acc : List Handle × List (RMEvent Handle)) (ctx : Element) :
    List Handle × List (RMEvent Handle) :=
  let id := getAttributeTId ctx
  if attrNeUndefined id then
    let module := getById id
    match module with
    | some m =>
        (acc.1 ++ [m], acc.2 ++ [RMEvent.getModuleByIdCall id module])
    | none => (acc.1, acc.2 ++ [RMEvent.getModuleByIdCall id module])
  else acc

/-- The `forEach` loop of line 85 over
`fragment.querySelectorAll('[data-t-name]')`, starting from the empty
`tmpModules`. -/
def collectModules (getById : AttrResult → Option Handle)
    (elems : List Element) : List Handle × List (RMEvent Handle) :=
  (querySelectorAllTName elems).foldl (collectStep getById) ([], [])

/-- What a `removeModules` call returns and effects: the returned value
(`return this`, line 109), the ordered trace of observable steps, and the
post-call state of the node argument when one was given (its parent pointer
is mutated by `fragment.appendChild(modules)`). -/
structure RMResult (Ctx Handle : Type) where
  ret : Sandbox Ctx Handle
  events : List (RMEvent Handle)
  nodeAfter : Option DomNode

/-- `Sandbox.prototype.removeModules` (lines 75–110):

    if (modules instanceof Node) {
      var tmpModules = [];
      var fragment = document.createDocumentFragment();
      fragment.appendChild(modules);
      [].forEach.call(fragment.querySelectorAll('[data-t-name]'), ...);
      modules = tmpModules;
    }
    if (Array.isArray(modules)) {
      application.stop(modules);
      application.unregisterModules(modules);
    }
    return this;

On the node path `appendChild` reparents the argument into the fresh
fragment (detaching it from its previous parent) before the loop runs; the
derived `tmpModules` is an array, so `Array.isArray` then holds.  The
function is total: no path throws. -/
def Sandbox.removeModules (s : Sandbox Ctx Handle) (input : RMInput Handle) :
    RMResult Ctx Handle :=
  match input with
  | RMInput.node n =>
      let reparented : DomNode := { n with parent := Parent.fragment }
      let derived :=
        collectModules s._application.getModuleById reparented.elems
      let tmpModules := derived.1
      { ret := s
        events := [RMEvent.createFragment, RMEvent.appendChild] ++ derived.2
          ++ [RMEvent.stop tmpModules,
              RMEvent.unregisterModules tmpModules]
        nodeAfter := some reparented }
  | RMInput.array hs =>
      { ret := s
        events := [RMEvent.stop hs, RMEvent.unregisterModules hs]
        nodeAfter := none }
  | RMInput.other =>
      { ret := s, events := [], nodeAfter := none }

/-- Whether an event is a `stop` or `unregisterModules` delegation. -/
def isStopOrUnregister : RMEvent Handle → Bool
  | RMEvent.stop _ => true
  | RMEvent.unregisterModules _ => true
  | _ => false

/-- Unfolding of the `forEach` fold: the handles collected are the
resolvable lookups in order, and the trace records one lookup per matched
element in order. -/
theorem collectStep_foldl (getById : AttrResult → Option Handle)
    (l : List Element) (a : List Handle) (b : List (RMEvent Handle)) :
    l.foldl (collectStep getById) (a, b) =
      (a ++ l.filterMap (fun ctx => getById (getAttributeTId ctx)),
       b ++ l.map (fun ctx =>
         RMEvent.getModuleByIdCall (getAttributeTId ctx)
           (getById (getAttributeTId ctx)))) := by
  induction l generalizing a b with
  | nil => simp
  | cons e rest ih =>
      simp only [List.foldl_cons, List.filterMap_cons, List.map_cons]
      rw [collectStep]
      simp only [attrNeUndefined, if_true]
      cases hm : getById (getAttributeTId e) with
      | some m => rw [ih]; simp
      | none => rw [ih]; simp

/-- C6: whenever `removeModules` obtains a concrete handle collection —
given directly as an array or derived from a subtree — the only delegated
lifecycle calls are one `stop` followed by one `unregisterModules`, both
with that same collection and in that order, and the call returns the
mediator itself. -/
theorem removeModules_stop_precedes_unregister (s : Sandbox Ctx Handle)
    (hs : List Handle) (n : DomNode) :
    ((s.removeModules (RMInput.array hs)).events.filter isStopOrUnregister
        = [RMEvent.stop hs, RMEvent.unregisterModules hs] ∧
      (s.removeModules (RMInput.array hs)).ret = s) ∧
    ((s.removeModules (RMInput.node n)).events.filter isStopOrUnregister
        = [RMEvent.stop
             (collectModules s._application.getModuleById n.elems).1,
           RMEvent.unregisterModules
             (collectModules s._application.getModuleById n.elems).1] ∧
      (s.removeModules (RMInput.node n)).ret = s) := by
  refine ⟨⟨?_, rfl⟩, ⟨?_, rfl⟩⟩
  · simp [Sandbox.removeModules, isStopOrUnregister]
  · simp only [Sandbox.removeModules, collectModules, collectStep_foldl,
      List.nil_append, List.filter_append]
    simp [List.filter_map, Function.comp, isStopOrUnregister]

/-- C7: marked elements whose identifier does not resolve to a registered
module are silently skipped: the lookup is attempted (and recorded), but
`stop` and `unregisterModules` receive only the handles that resolved, and
`removeModules` raises no error (it is a total function). -/
theorem removeModules_skips_unresolvable (s : Sandbox Ctx Handle)
    (n : DomNode) (l₁ l₂ : List Element) (bad : Element)
    (hmatch : querySelectorAllTName n.elems = l₁ ++ bad :: l₂)
    (hbad : s._application.getModuleById (getAttributeTId bad) = none) :
    (s.removeModules (RMInput.node n)).events =
      [RMEvent.createFragment, RMEvent.appendChild]
      ++ (l₁ ++ bad :: l₂).map (fun ctx =>
           RMEvent.getModuleByIdCall (getAttributeTId ctx)
             (s._application.getModuleById (getAttributeTId ctx)))
      ++ [RMEvent.stop
            (l₁.filterMap (fun ctx =>
               s._application.getModuleById (getAttributeTId ctx))
             ++ l₂.filterMap (fun ctx =>
               s._application.getModuleById (getAttributeTId ctx))),
          RMEvent.unregisterModules
            (l₁.filterMap (fun ctx =>
               s._application.getModuleById (getAttributeTId ctx))
             ++ l₂.filterMap (fun ctx =>
               s._application.getModuleById (getAttributeTId ctx)))] := by
  simp only [Sandbox.removeModules, collectModules, hmatch,
    collectStep_foldl, List.nil_append]
  simp [List.filterMap_append, List.filterMap_cons, hbad]

/-- Application used to instantiate the `removeModules` theorems: only the
identifier `"1"` resolves, to module handle `7`. -/
def wApp : Application Unit Nat :=
  { registerModules := fun _ => []
    getModuleById := fun id =>
      match id with
      | AttrResult.str "1" => some 7
      | _ => none }

/-- Sandbox around `wApp`. -/
def wSandbox : Sandbox Unit Nat :=
  { _application := wApp, _config := [], _connectors := [] }

/-- A marked element whose identifier `"1"` resolves. -/
def wElemGood : Element := { tName := some "mod", tId := some "1" }

/-- A marked element whose identifier `"2"` does not resolve. -/
def wElemBad : Element := { tName := some "mod", tId := some "2" }

/-- A subtree node holding both elements, currently parented at element
`0`. -/
def wNode : DomNode :=
  { parent := Parent.elem 0, elems := [wElemGood, wElemBad] }

/-- C7 witness: a subtree with one resolvable and one unresolvable marked
element; `stop`/`unregisterModules` receive only handle `7`. -/
theorem removeModules_skips_unresolvable_witness :
    (wSandbox.removeModules (RMInput.node wNode)).events =
      [RMEvent.createFragment, RMEvent.appendChild]
      ++ ([wElemGood] ++ wElemBad :: []).map (fun ctx =>
           RMEvent.getModuleByIdCall (getAttributeTId ctx)
             (wSandbox._application.getModuleById (getAttributeTId ctx)))
      ++ [RMEvent.stop
            ([wElemGood].filterMap (fun ctx =>
               wSandbox._application.getModuleById (getAttributeTId ctx))
             ++ List.filterMap (fun ctx =>
               wSandbox._application.getModuleById (getAttributeTId ctx)) []),
          RMEvent.unregisterModules
            ([wElemGood].filterMap (fun ctx =>
               wSandbox._application.getModuleById (getAttributeTId ctx))
             ++ List.filterMap (fun ctx =>
               wSandbox._application.getModuleById (getAttributeTId ctx)) [])] :=
  removeModules_skips_unresolvable wSandbox wNode [wElemGood] [] wElemBad
    (by decide) (by decide)

/-- C9: on a subtree-root argument, `removeModules` mutates the DOM: the
fresh fragment is created and the node is appended into it — detaching it
from whatever parent it had — before any identifier lookup is performed. -/
theorem removeModules_detaches_node (s : Sandbox Ctx Handle) (n : DomNode)
    (hpar : n.parent ≠ Parent.fragment) :
    (s.removeModules (RMInput.node n)).nodeAfter =
      some { parent := Parent.fragment, elems := n.elems } ∧
    (∀ d, (s.removeModules (RMInput.node n)).nodeAfter = some d →
      d.parent ≠ n.parent) ∧
    (s.removeModules (RMInput.node n)).events.get? 0 =
      some RMEvent.createFragment ∧
    (s.removeModules (RMInput.node n)).events.get? 1 =
      some RMEvent.appendChild ∧
    (∀ k id m, (s.removeModules (RMInput.node n)).events.get? k =
      some (RMEvent.getModuleByIdCall id m) → 2 ≤ k) := by
  refine ⟨rfl, ?_, rfl, rfl, ?_⟩
  · intro d hd
    simp only [Sandbox.removeModules, Option.some.injEq] at hd
    subst hd
    simpa using fun h => hpar h.symm
  · intro k id m hk
    match k with
    | 0 => simp [Sandbox.removeModules] at hk
    | 1 => simp [Sandbox.removeModules] at hk
    | Nat.succ (Nat.succ k) => omega

/-- C9 witness: `wNode`, parented at element `0`, ends up parented in the
fresh fragment, and the append happens before the lookups. -/
theorem removeModules_detaches_node_witness :
    wNode.parent ≠ Parent.fragment ∧
    ((wSandbox.removeModules (RMInput.node wNode)).nodeAfter =
      some { parent := Parent.fragment, elems := wNode.elems } ∧
    (∀ d, (wSandbox.removeModules (RMInput.node wNode)).nodeAfter = some d →
      d.parent ≠ wNode.parent) ∧
    (wSandbox.removeModules (RMInput.node wNode)).events.get? 0 =
      some RMEvent.createFragment ∧
    (wSandbox.removeModules (RMInput.node wNode)).events.get? 1 =
      some RMEvent.appendChild ∧
    (∀ k id m, (wSandbox.removeModules (RMInput.node wNode)).events.get? k =
      some (RMEvent.getModuleByIdCall id m) → 2 ≤ k)) :=
  ⟨by decide, removeModules_detaches_node wSandbox wNode (by decide)⟩

/-- One invocation of a connector's `emit` performed by the dispatch loop:
the receiving connector's identity, the value bound as `this`, and the
positional arguments passed.  Line 183 reads
`connectors[i].emit.apply(args)`: `Function.prototype.apply` receives
`args` as its `this`-argument and no argument array, so the emit function
runs with `this` bound to the payload array and an empty argument list. -/
structure EmitCall where
  endpoint : Nat
  thisArg : List JSValue
  callArgs : List JSValue
deriving DecidableEq, Repr

/-- The loop of lines 181–185:

    for(var i = 0, len = connectors.length; i < len; i++) {
      if(connectors[i] !== connector) {
        connectors[i].emit.apply(args);
      }
    }

`emitThrows` says whether a given endpoint's emit throws when invoked; a
throw propagates, aborting the loop (second component `true`).  The first
component lists the emit invocations actually performed, in order,
including the one that threw. -/
def dispatchLoop (emitThrows : Nat → Bool) (connectors : List Nat)
    (connector : Nat) (args : List JSValue) : List EmitCall × Bool :=
  match connectors with
  | [] => ([], false)
  | c :: rest =>
    if c ≠ connector then
      let call : EmitCall := { endpoint := c, thisArg := args, callArgs := [] }
      if emitThrows c then ([call], true)
      else
        let r := dispatchLoop emitThrows rest connector args
        (call :: r.1, r.2)
    else dispatchLoop emitThrows rest connector args

/-- `Sandbox.prototype.dispatch` (lines 177–188):

    var connectors = this._connectors, args = [].slice.call(arguments, 1);
    for(...) { if(connectors[i] !== connector) connectors[i].emit.apply(args); }
    return this;

Returns the performed emit invocations together with the returned value:
`some this` when the loop completes, `none` when an emit threw (the
exception propagates and `return this` is never reached). -/
def Sandbox.dispatch (s : Sandbox Ctx Handle) (emitThrows : Nat → Bool)
    (connector : Nat) (args : List JSValue) :
    List EmitCall × Option (Sandbox Ctx Handle) :=
  let connectors := s._connectors
  let r := dispatchLoop emitThrows connectors connector args
  (r.1, if r.2 then none else some s)

/-- Sandbox whose connector sequence `[1, 2]` was built by two
`addConnector` calls. -/
def sandboxTwoConnectors : Sandbox Unit Nat :=
  (wSandbox.addConnector 1).addConnector 2

/-- C1, failing input: connectors `[1, 2]`, `dispatch(1, "x")`.  The
non-origin endpoint `2` does receive exactly one emit invocation, but the
invocation carries an empty positional argument list — `emit.apply(args)`
binds the payload array as `this` instead of passing it as arguments — so
the invocation does not carry the payload, contradicting the dispatch doc
comment ("Dispatches the event with the given arguments"). -/
theorem dispatch_payload_not_forwarded :
    (sandboxTwoConnectors.dispatch (fun _ => false) 1 [JSValue.str "x"]).1 =
      [{ endpoint := 2, thisArg := [JSValue.str "x"], callArgs := [] }] ∧
    (sandboxTwoConnectors.dispatch (fun _ => false) 1 [JSValue.str "x"]).1.map
        EmitCall.callArgs = [[]] ∧
    [JSValue.str "x"] ≠ ([] : List JSValue) := by
  refine ⟨rfl, rfl, by decide⟩

/-- C8, counterexample: connectors `[1, 2]`, origin `0`, endpoint `1`'s
emit throws.  Endpoint `2` is a registered non-origin endpoint, yet it
receives no emit invocation: the failure of endpoint `1` aborts the
fan-out, and the exception propagates (`dispatch` never returns `this`). -/
theorem dispatch_failure_isolation_counterexample :
    (sandboxTwoConnectors.dispatch (fun c => c == 1) 0 []).1 =
      [{ endpoint := 1, thisArg := [], callArgs := [] }] ∧
    (∀ call ∈ (sandboxTwoConnectors.dispatch (fun c => c == 1) 0 []).1,
      call.endpoint ≠ 2) ∧
    2 ∈ sandboxTwoConnectors._connectors ∧ (2 : Nat) ≠ 0 ∧
    (sandboxTwoConnectors.dispatch (fun c => c == 1) 0 []).2 = none := by
  refine ⟨rfl, by decide, by decide, by decide, rfl⟩

/-- Unfolding of the dispatch loop up to the first throwing non-origin
endpoint: every earlier non-origin endpoint was invoked, the throwing one
was invoked, and the loop stops there. -/
theorem dispatchLoop_throw (emitThrows : Nat → Bool) (connector c : Nat)
    (args : List JSValue) (back : List Nat) (front : List Nat)
    (hfront : ∀ e ∈ front, e ≠ connector → emitThrows e = false)
    (hc : c ≠ connector) (hthrow : emitThrows c = true) :
    dispatchLoop emitThrows (front ++ c :: back) connector args =
      ((front.filter (fun e => e != connector)).map
        (fun e => { endpoint := e, thisArg := args, callArgs := [] }) ++
        [{ endpoint := c, thisArg := args, callArgs := [] }], true) := by
  induction front with
  | nil =>
      simp only [List.nil_append, List.filter_nil, List.map_nil]
      rw [dispatchLoop, if_pos hc, if_pos hthrow]
  | cons e front ih =>
      have ih' := ih (fun x hx hne => hfront x (List.mem_cons_of_mem _ hx) hne)
      by_cases he : e = connector
      · subst he
        rw [List.cons_append, dispatchLoop, if_neg (by simp), ih']
        simp
      · have hef : emitThrows e = false :=
          hfront e (List.mem_cons_self _ _) he
        rw [List.cons_append, dispatchLoop, if_pos he, hef]
        simp [ih', List.filter_cons, he]

/-- C8, amended: an emit failure is not isolated — when a non-origin
endpoint's emit throws and every non-origin endpoint before it does not,
the emit invocations performed are exactly those for the earlier non-origin
endpoints plus the throwing one, the endpoints after it receive none, and
the exception propagates out of `dispatch` (no `this` is returned). -/
theorem dispatch_emit_failure_aborts (s : Sandbox Ctx Handle)
    (emitThrows : Nat → Bool) (front back : List Nat) (c connector : Nat)
    (args : List JSValue)
    (hconn : s._connectors = front ++ c :: back)
    (hfront : ∀ e ∈ front, e ≠ connector → emitThrows e = false)
    (hc : c ≠ connector) (hthrow : emitThrows c = true) :
    (s.dispatch emitThrows connector args).1 =
      (front.filter (fun e => e != connector)).map
        (fun e => { endpoint := e, thisArg := args, callArgs := [] }) ++
        [{ endpoint := c, thisArg := args, callArgs := [] }] ∧
    (s.dispatch emitThrows connector args).2 = none := by
  have hd := dispatchLoop_throw emitThrows connector c args back front
    hfront hc hthrow
  simp only [Sandbox.dispatch, hconn, hd]
  simp

/-- C8 amended-claim witness: connectors `[1, 2]`, origin `0`, endpoint
`2`'s emit throws; endpoint `1` is invoked, then endpoint `2`, then the
loop aborts. -/
theorem dispatch_emit_failure_aborts_witness :
    sandboxTwoConnectors._connectors = [1] ++ 2 :: [] ∧
    ((sandboxTwoConnectors.dispatch (fun c => c == 2) 0 []).1 =
      ([1].filter (fun e => e != 0)).map
        (fun e => { endpoint := e, thisArg := [], callArgs := [] }) ++
        [{ endpoint := 2, thisArg := [], callArgs := [] }] ∧
    (sandboxTwoConnectors.dispatch (fun c => c == 2) 0 []).2 = none) :=
  ⟨by decide,
    dispatch_emit_failure_aborts sandboxTwoConnectors (fun c => c == 2)
      [1] [] 2 0 [] (by decide) (by decide) (by decide) (by decide)⟩
